import Mathlib

/-!
Shallow embedding of `OpenLayers.Control.GoogleEarthView`
(src/openlayers.addins/GoogleEarthView/lib/OpenLayers/Control/GoogleEarthView.js),
the 2D/3D camera synchronization control.

Numbers are modelled by `ℚ`.  The external collaborators (projection
transforms, pixel conversion, spherical distance/bearing, `Math.sin` and
`Math.atan2`) are uninterpreted function parameters collected in `Env`;
the control only pipes their outputs around, which is exactly what the
claims quantify over.  Geometry objects carry a `ref` field standing for
JavaScript object identity: every `new OpenLayers.Geometry.Point` in the
source allocates a fresh `ref` drawn from the `nextRef` counter.
-/

namespace GoogleEarthView

/-- A geographic or map-projected coordinate pair (`OpenLayers.LonLat`). -/
structure LonLat where
  lon : ℚ
  lat : ℚ
deriving DecidableEq, Repr

/-- A viewport pixel (`OpenLayers.Pixel`). -/
structure Pixel where
  x : ℚ
  y : ℚ
deriving DecidableEq, Repr

/-- An `OpenLayers.Geometry.Point`; `ref` models the JavaScript object
reference so that "geometry references unchanged" is expressible. -/
structure GPoint where
  x : ℚ
  y : ℚ
  ref : ℕ
deriving DecidableEq, Repr

/-- The engine camera pose returned by `view.copyAsCamera(altitudeMode)`. -/
structure GeCamera where
  longitude : ℚ
  latitude : ℚ
  tilt : ℚ
deriving DecidableEq, Repr

/-- The engine look-at pose returned by `view.copyAsLookAt(altitudeMode)`;
also the shape of the abstract view pushed back by `setAbstractView`. -/
structure GeLookAt where
  longitude : ℚ
  latitude : ℚ
  heading : ℚ
  tilt : ℚ
  range : ℚ
deriving DecidableEq, Repr

/-- The Google Earth plugin handle.  `pushedViews` records every
`view.setAbstractView(...)` call (most recent first) and
`flyToSpeedTeleportCalls` counts `getOptions().setFlyToSpeed(SPEED_TELEPORT)`
invocations. -/
structure GEPlugin where
  camera : GeCamera
  lookAt : GeLookAt
  pushedViews : List GeLookAt
  flyToSpeedTeleportCalls : ℕ
deriving DecidableEq, Repr

/-- External collaborators of the control, as uninterpreted functions:
`geoToMap` is `OpenLayers.Projection.transform` from `geProjection`
(EPSG:4326) to the map projection, `mapToGeo` the opposite direction,
`pxToLonLat` is `layer.getLonLatFromViewPortPx`, `lonLatToPx` is
`layer.getViewPortPxFromLonLat`, `computeHeading` is
`OpenLayers.Spherical.computeHeading`, `distVincenty` is
`OpenLayers.Util.distVincenty`, `sinDeg t` is `Math.sin(Math.PI * t / 180)`
and `atan2Deg y x` is `180 * Math.atan2(y, x) / Math.PI`. -/
structure Env where
  geoToMap : LonLat → LonLat
  mapToGeo : LonLat → LonLat
  pxToLonLat : Pixel → LonLat
  lonLatToPx : LonLat → Pixel
  computeHeading : LonLat → LonLat → ℚ
  distVincenty : LonLat → LonLat → ℚ
  sinDeg : ℚ → ℚ
  atan2Deg : ℚ → ℚ → ℚ

/-- The three vector features owned by the control. -/
inductive Feat
  | line
  | lookAt
  | camera
deriving DecidableEq, Repr

/-- Observable mutations of the vector layer (`removeAllFeatures`,
`addFeatures`). -/
inductive LayerOp
  | removeAll
  | add (fs : List Feat)
deriving DecidableEq, Repr

/-- The persistent state of the control: the fields of the JavaScript
object that the modelled methods read or write, plus the `nextRef`
allocation counter for geometry identity. -/
structure ControlState where
  active : Bool
  gePlugin : Option GEPlugin
  frameendAttached : Bool
  gePluginFlyToSpeedSet : Bool
  featuresAdded : Bool
  gimballLock : Bool
  gimballLockThreshold : ℚ
  cameraGeom : Option GPoint
  lookAtGeom : Option GPoint
  lineGeom : Option (GPoint × GPoint)
  cameraRotation : ℚ
  layerFeatures : List Feat
  layerOnMap : Bool
  dragControlOnMap : Bool
  dragControlActive : Bool
  initialLookAt : Option LonLat
  initialRange : Option ℚ
  nextRef : ℕ
deriving DecidableEq, Repr

/-- The state right after `initialize`/`draw`: inactive, no plugin, no
listener, features not yet added, default gimbal-lock threshold 1. -/
def initialState : ControlState where
  active := false
  gePlugin := none
  frameendAttached := false
  gePluginFlyToSpeedSet := false
  featuresAdded := false
  gimballLock := false
  gimballLockThreshold := 1
  cameraGeom := none
  lookAtGeom := none
  lineGeom := none
  cameraRotation := 0
  layerFeatures := []
  layerOnMap := false
  dragControlOnMap := false
  dragControlActive := false
  initialLookAt := none
  initialRange := none
  nextRef := 0

/-- The change-detection condition of `update` (lines 381-386): first
render, flipped gimbal-lock flag, or either projected position moved.
The `getD` default is never reached: `!featuresAdded` short-circuits the
disjunction before the stored geometries are dereferenced, exactly as in
the JavaScript `||`. -/
def changeDetected (env : Env) (p : GEPlugin) (s : ControlState) : Bool :=
  !s.featuresAdded ||
    (decide (p.camera.tilt < s.gimballLockThreshold) != s.gimballLock) ||
    ((env.geoToMap ⟨p.camera.longitude, p.camera.latitude⟩).lon !=
      (s.cameraGeom.getD ⟨0, 0, 0⟩).x) ||
    ((env.geoToMap ⟨p.camera.longitude, p.camera.latitude⟩).lat !=
      (s.cameraGeom.getD ⟨0, 0, 0⟩).y) ||
    ((env.geoToMap ⟨p.lookAt.longitude, p.lookAt.latitude⟩).lon !=
      (s.lookAtGeom.getD ⟨0, 0, 0⟩).x) ||
    ((env.geoToMap ⟨p.lookAt.longitude, p.lookAt.latitude⟩).lat !=
      (s.lookAtGeom.getD ⟨0, 0, 0⟩).y)

/-- `update` (lines 357-425), the frameend handler.  Returns the new state
together with the trace of layer mutations performed.  The two candidate
point geometries are allocated unconditionally (lines 366, 373), so
`nextRef` advances by 2 on every call; they are only installed in the
features when change detection fires. -/
def update (env : Env) (p : GEPlugin) (s : ControlState) :
    ControlState × List LayerOp :=
  let cam := env.geoToMap ⟨p.camera.longitude, p.camera.latitude⟩
  let look := env.geoToMap ⟨p.lookAt.longitude, p.lookAt.latitude⟩
  let newCameraGeometry : GPoint := ⟨cam.lon, cam.lat, s.nextRef⟩
  let newLookAtGeometry : GPoint := ⟨look.lon, look.lat, s.nextRef + 1⟩
  let gimballLock : Bool := decide (p.camera.tilt < s.gimballLockThreshold)
  if changeDetected env p s then
    let kept : List Feat := if s.featuresAdded then [] else s.layerFeatures
    let removeOps : List LayerOp :=
      if s.featuresAdded then [LayerOp.removeAll] else []
    if gimballLock then
      ({ s with
          gimballLock := gimballLock
          cameraGeom := some newCameraGeometry
          lookAtGeom := some newLookAtGeometry
          lineGeom := some (newCameraGeometry, newLookAtGeometry)
          layerFeatures := kept ++ [Feat.camera]
          cameraRotation := p.lookAt.heading
          featuresAdded := true
          nextRef := s.nextRef + 2 },
        removeOps ++ [LayerOp.add [Feat.camera]])
    else
      let cameraPixel := env.lonLatToPx ⟨p.camera.longitude, p.camera.latitude⟩
      let lookAtPixel := env.lonLatToPx ⟨p.lookAt.longitude, p.lookAt.latitude⟩
      let rotation :=
        90 + env.atan2Deg (lookAtPixel.y - cameraPixel.y)
          (lookAtPixel.x - cameraPixel.x)
      ({ s with
          gimballLock := gimballLock
          cameraGeom := some newCameraGeometry
          lookAtGeom := some newLookAtGeometry
          lineGeom := some (newCameraGeometry, newLookAtGeometry)
          layerFeatures := kept ++ [Feat.line, Feat.lookAt, Feat.camera]
          cameraRotation := rotation
          featuresAdded := true
          nextRef := s.nextRef + 2 },
        removeOps ++ [LayerOp.add [Feat.line, Feat.lookAt, Feat.camera]])
  else
    ({ s with gimballLock := gimballLock, nextRef := s.nextRef + 2 }, [])

/-- `connectGEPlugin` (lines 247-252): binds and registers the frameend
callback and clears the one-time fly-to-speed flag (line 251). -/
def connectGEPlugin (s : ControlState) : ControlState :=
  { s with frameendAttached := true, gePluginFlyToSpeedSet := false }

/-- `disconnectGEPlugin` (lines 256-262): unregisters the frameend
callback if one is bound. -/
def disconnectGEPlugin (s : ControlState) : ControlState :=
  if s.frameendAttached then { s with frameendAttached := false } else s

/-- `setGEPlugin` (lines 233-243): swap the engine handle; when a non-null
handle is installed while the control is active, reconnect and resync. -/
def setGEPlugin (env : Env) (gp : Option GEPlugin) (s : ControlState) :
    ControlState :=
  let s1 := { disconnectGEPlugin s with gePlugin := gp }
  match s1.gePlugin with
  | some p =>
      if s1.active then (update env p (connectGEPlugin s1)).1 else s1
  | none => s1

/-- Modelled from the spec: `OpenLayers.Control.prototype.activate` — the
OpenLayers base class is not among this repository's sources.  Per the
spec's idempotence contract it succeeds, setting the active flag, only
when the control was inactive, and otherwise reports failure without
touching any state. -/
def baseActivate (s : ControlState) : ControlState × Bool :=
  if s.active then (s, false) else ({ s with active := true }, true)

/-- Modelled from the spec: `OpenLayers.Control.prototype.deactivate` —
the OpenLayers base class is not among this repository's sources.  It
clears the active flag and succeeds only when the control was active. -/
def baseDeactivate (s : ControlState) : ControlState × Bool :=
  if s.active then ({ s with active := false }, true) else (s, false)

/-- `activate` (lines 299-311): the base-class activation runs first, then
the `gePlugin` presence check; on success the layer and drag control are
added to the map, the frameend listener attached and an initial sync
performed. -/
def activate (env : Env) (s : ControlState) : ControlState × Bool :=
  let base := baseActivate s
  if base.2 then
    match base.1.gePlugin with
    | some p =>
        let s2 := { base.1 with
          layerOnMap := true
          dragControlOnMap := true
          dragControlActive := true }
        ((update env p (connectGEPlugin s2)).1, true)
    | none => (base.1, false)
  else
    (base.1, false)

/-- `deactivate` (lines 315-325): on success detaches the frameend
listener and drag control and removes the layer from the map. -/
def deactivate (s : ControlState) : ControlState × Bool :=
  let base := baseDeactivate s
  if base.2 then
    let s1 := disconnectGEPlugin base.1
    ({ s1 with
        dragControlActive := false
        dragControlOnMap := false
        layerOnMap := false }, true)
  else
    (base.1, false)

/-- `onStart` (lines 429-450): captures the drag anchor (look-at position
and range) and, at most once while the fly-to-speed flag is clear, puts
the engine in teleport transition mode.  The `none` branch is unreachable
in the drag flow (the drag control is only active after a successful
`activate`, which requires a plugin); the JavaScript would dereference a
null view there. -/
def onStart (env : Env) (s : ControlState) : ControlState :=
  match s.gePlugin with
  | none => s
  | some p =>
      let lookAtGeo := env.mapToGeo
        ⟨(s.lookAtGeom.getD ⟨0, 0, 0⟩).x, (s.lookAtGeom.getD ⟨0, 0, 0⟩).y⟩
      let cameraGeo := env.mapToGeo
        ⟨(s.cameraGeom.getD ⟨0, 0, 0⟩).x, (s.cameraGeom.getD ⟨0, 0, 0⟩).y⟩
      let range :=
        1000 * env.distVincenty cameraGeo lookAtGeo / env.sinDeg p.lookAt.tilt
      let s1 := { s with
        initialLookAt := some lookAtGeo
        initialRange := some range }
      if !s1.gePluginFlyToSpeedSet then
        { s1 with
            gePlugin := some
              { p with flyToSpeedTeleportCalls := p.flyToSpeedTeleportCalls + 1 }
            gePluginFlyToSpeedSet := true }
      else
        s1

/-- `onDrag` (lines 329-355): converts the dropped pixel to a geographic
point, then pushes a new abstract view to the engine.  Dragging the
camera while not gimbal-locked recomputes heading and range around the
anchored look-at; dragging the look-at marker (or the camera while
gimbal-locked) moves the look-at and keeps the anchored range.  The
`getD` defaults stand for the `initialLookAt`/`initialRange` fields the
JavaScript reads after `onStart` has set them. -/
def onDrag (env : Env) (s : ControlState) (feature : Feat) (pixel : Pixel) :
    ControlState :=
  match s.gePlugin with
  | none => s
  | some p =>
      let lonLat := env.mapToGeo (env.pxToLonLat pixel)
      let geLookAt := p.lookAt
      let anchor := s.initialLookAt.getD ⟨0, 0⟩
      let pushed : GeLookAt :=
        if (feature == Feat.camera) && !s.gimballLock then
          { geLookAt with
              longitude := anchor.lon
              latitude := anchor.lat
              heading := -env.computeHeading lonLat anchor
              range := 1000 * env.distVincenty lonLat anchor /
                env.sinDeg geLookAt.tilt }
        else if (feature == Feat.lookAt) ||
            ((feature == Feat.camera) && s.gimballLock) then
          { geLookAt with
              range := s.initialRange.getD 0
              longitude := lonLat.lon
              latitude := lonLat.lat }
        else
          geLookAt
      { s with gePlugin := some { p with pushedViews := pushed :: p.pushedViews } }

/-- The rendering invariant relating `featuresAdded`, `gimballLock` and
the layer contents: before the first render the layer is empty; after it,
the layer holds exactly the camera marker in the gimbal-locked case and
exactly line, look-at and camera otherwise. -/
def renderedInv (s : ControlState) : Bool :=
  if s.featuresAdded then
    s.layerFeatures ==
      (if s.gimballLock then [Feat.camera]
        else [Feat.line, Feat.lookAt, Feat.camera])
  else
    s.layerFeatures == []

/-- The real-valued range formula of the camera drag (lines 344-346):
`1000 * distVincenty(point, anchor) / Math.sin(Math.PI * tilt / 180)`,
with the genuine real sine, for the monotonicity claim. -/
noncomputable def computeRange (d tilt : ℝ) : ℝ :=
  1000 * d / Real.sin (Real.pi * tilt / 180)

/-- A concrete environment for the executable witnesses: identity
projections, pixel conversion by coordinates, and simple total stand-ins
for the spherical formulas. -/
def env0 : Env where
  geoToMap := fun ll => ll
  mapToGeo := fun ll => ll
  pxToLonLat := fun px => ⟨px.x, px.y⟩
  lonLatToPx := fun ll => ⟨ll.lon, ll.lat⟩
  computeHeading := fun a b => a.lon - b.lon
  distVincenty := fun a b => a.lon - b.lon + a.lat - b.lat
  sinDeg := fun _ => 1
  atan2Deg := fun y x => y + x

/-- The rational number one half, built without the (irreducible)
division operator so that it evaluates under `decide`. -/
def half : ℚ := Rat.mk' 1 2 (by decide) (by decide)

/-- A non-degenerate engine pose: tilt 45°, camera at (7, 47), look-at
at (8, 47). -/
def p7 : GEPlugin where
  camera := { longitude := 7, latitude := 47, tilt := 45 }
  lookAt :=
    { longitude := 8, latitude := 47, heading := 0, tilt := 45, range := 1000 }
  pushedViews := []
  flyToSpeedTeleportCalls := 0

/-- A degenerate engine pose: tilt 0.5°, below the default threshold 1°. -/
def pDeg : GEPlugin where
  camera := { longitude := 7, latitude := 47, tilt := half }
  lookAt :=
    { longitude := 7, latitude := 47, heading := 0, tilt := half, range := 1000 }
  pushedViews := []
  flyToSpeedTeleportCalls := 0

/-- The degenerate pose after the engine heading turned to 7° with the
camera and look-at positions unchanged. -/
def pDegH7 : GEPlugin :=
  { pDeg with lookAt := { pDeg.lookAt with heading := 7 } }

/-- Trace: the plugin handle is installed on the fresh control. -/
def sA : ControlState := setGEPlugin env0 (some p7) initialState

/-- Trace: the control is activated (connects and syncs). -/
def sB : ControlState := (activate env0 sA).1

/-- Trace: a first drag starts (sets the fly-to-speed flag). -/
def sC : ControlState := onStart env0 sB

/-- Trace: the control is deactivated. -/
def sD : ControlState := (deactivate sC).1

/-- Trace: the control is reactivated (reconnects). -/
def sE : ControlState := (activate env0 sD).1

/-- A state that has already rendered the pose of `p7`. -/
def sRendered : ControlState := (update env0 p7 initialState).1

/-- A non-degenerate mid-drag state with a captured drag anchor. -/
def sDragND : ControlState :=
  { initialState with
      active := true
      gePlugin := some p7
      gimballLock := false
      initialLookAt := some ⟨8, 47⟩
      initialRange := some 4242 }

/-- A gimbal-locked mid-drag state with a captured drag anchor. -/
def sDragDeg : ControlState :=
  { initialState with
      active := true
      gePlugin := some pDeg
      gimballLock := true
      initialLookAt := some ⟨7, 47⟩
      initialRange := some 555 }

/-- The distance function used in the C5 witness: the longitude of the
first point, cast to the reals. -/
def dvW : LonLat → LonLat → ℝ := fun q _ => (q.lon : ℝ)

theorem changeDetected_false_elim (env : Env) (p : GEPlugin) (s : ControlState)
    (h : changeDetected env p s = false) :
    s.featuresAdded = true ∧
      decide (p.camera.tilt < s.gimballLockThreshold) = s.gimballLock := by
  unfold changeDetected at h
  simp only [Bool.or_eq_false_iff, Bool.not_eq_false', bne_eq_false_iff_eq] at h
  exact ⟨h.1.1.1.1.1, h.1.1.1.1.2⟩

theorem update_gimballLock_eq (env : Env) (p : GEPlugin) (s : ControlState) :
    (update env p s).1.gimballLock =
      decide (p.camera.tilt < s.gimballLockThreshold) := by
  unfold update
  cases h : changeDetected env p s <;>
    by_cases hg : p.camera.tilt < s.gimballLockThreshold <;> simp [hg]

theorem update_featuresAdded_true (env : Env) (p : GEPlugin) (s : ControlState) :
    (update env p s).1.featuresAdded = true := by
  unfold update
  cases h : changeDetected env p s
  · have hfa := (changeDetected_false_elim env p s h).1
    simp [hfa]
  · by_cases hg : p.camera.tilt < s.gimballLockThreshold <;> simp [hg]

theorem update_active_eq (env : Env) (p : GEPlugin) (s : ControlState) :
    (update env p s).1.active = s.active := by
  unfold update
  cases h : changeDetected env p s <;>
    by_cases hg : p.camera.tilt < s.gimballLockThreshold <;> simp [hg]

theorem update_frameendAttached_eq (env : Env) (p : GEPlugin) (s : ControlState) :
    (update env p s).1.frameendAttached = s.frameendAttached := by
  unfold update
  cases h : changeDetected env p s <;>
    by_cases hg : p.camera.tilt < s.gimballLockThreshold <;> simp [hg]

theorem update_gePlugin_eq (env : Env) (p : GEPlugin) (s : ControlState) :
    (update env p s).1.gePlugin = s.gePlugin := by
  unfold update
  cases h : changeDetected env p s <;>
    by_cases hg : p.camera.tilt < s.gimballLockThreshold <;> simp [hg]

theorem update_gimballLockThreshold_eq (env : Env) (p : GEPlugin)
    (s : ControlState) :
    (update env p s).1.gimballLockThreshold = s.gimballLockThreshold := by
  unfold update
  cases h : changeDetected env p s <;>
    by_cases hg : p.camera.tilt < s.gimballLockThreshold <;> simp [hg]

theorem update_layer_eq (env : Env) (p : GEPlugin) (s : ControlState)
    (hinv : renderedInv s = true) :
    (update env p s).1.layerFeatures =
      (if p.camera.tilt < s.gimballLockThreshold then [Feat.camera]
        else [Feat.line, Feat.lookAt, Feat.camera]) := by
  unfold update
  cases hch : changeDetected env p s
  · obtain ⟨hfa, hgl⟩ := changeDetected_false_elim env p s hch
    unfold renderedInv at hinv
    rw [hfa] at hinv
    simp only [if_true] at hinv
    have hinv' := eq_of_beq hinv
    by_cases hg : p.camera.tilt < s.gimballLockThreshold
    · rw [decide_eq_true hg] at hgl
      simp [hg, hinv', ← hgl]
    · rw [decide_eq_false hg] at hgl
      simp [hg, hinv', ← hgl]
  · have hkept :
        (if s.featuresAdded then ([] : List Feat) else s.layerFeatures) = [] := by
      cases hfa : s.featuresAdded
      · unfold renderedInv at hinv
        rw [hfa] at hinv
        simpa using eq_of_beq (by simpa using hinv)
      · simp
    by_cases hg : p.camera.tilt < s.gimballLockThreshold <;> simp [hg, hkept]

theorem update_preserves_renderedInv (env : Env) (p : GEPlugin)
    (s : ControlState) (hinv : renderedInv s = true) :
    renderedInv (update env p s).1 = true := by
  unfold renderedInv
  rw [update_featuresAdded_true env p s, update_gimballLock_eq env p s,
    update_layer_eq env p s hinv]
  by_cases hg : p.camera.tilt < s.gimballLockThreshold <;> simp [hg]

/-- C1: after every frame-end update, the degeneracy flag equals the
predicate "camera tilt is below the gimbal-lock threshold", and the
vector layer then contains exactly the camera marker when the flag is
true, and exactly the three features (connecting line, look-at marker,
camera marker) when it is false.  The hypothesis is the rendering
invariant, which holds in the initial state and is preserved by `update`
(`update_preserves_renderedInv`). -/
theorem update_flag_matches_tilt_and_layer (env : Env) (p : GEPlugin)
    (s : ControlState) (hinv : renderedInv s = true) :
    (update env p s).1.gimballLock =
      decide (p.camera.tilt < s.gimballLockThreshold) ∧
    (update env p s).1.layerFeatures =
      (if p.camera.tilt < s.gimballLockThreshold then [Feat.camera]
        else [Feat.line, Feat.lookAt, Feat.camera]) :=
  ⟨update_gimballLock_eq env p s, update_layer_eq env p s hinv⟩

/-- Witness for C1: the fresh control rendering the non-degenerate pose
`p7` ends up with all three features on the layer. -/
theorem update_flag_matches_tilt_and_layer_witness :
    renderedInv initialState = true ∧
    ((update env0 p7 initialState).1.gimballLock =
        decide (p7.camera.tilt < initialState.gimballLockThreshold) ∧
      (update env0 p7 initialState).1.layerFeatures =
        (if p7.camera.tilt < initialState.gimballLockThreshold then [Feat.camera]
          else [Feat.line, Feat.lookAt, Feat.camera])) :=
  ⟨by decide, update_flag_matches_tilt_and_layer env0 p7 initialState (by decide)⟩

/-- C2: a frame-end update on an already-rendered state whose projected
camera and look-at positions and degeneracy flag are unchanged performs
no mutation: the three feature geometries keep their references, the
layer is not touched (empty operation trace), and only the allocation
counter for the two discarded candidate points advances. -/
theorem update_unchanged_pose_no_mutation (env : Env) (p : GEPlugin)
    (s : ControlState) (cg lg : GPoint)
    (hfa : s.featuresAdded = true)
    (hcg : s.cameraGeom = some cg)
    (hlg : s.lookAtGeom = some lg)
    (hcx : (env.geoToMap ⟨p.camera.longitude, p.camera.latitude⟩).lon = cg.x)
    (hcy : (env.geoToMap ⟨p.camera.longitude, p.camera.latitude⟩).lat = cg.y)
    (hlx : (env.geoToMap ⟨p.lookAt.longitude, p.lookAt.latitude⟩).lon = lg.x)
    (hly : (env.geoToMap ⟨p.lookAt.longitude, p.lookAt.latitude⟩).lat = lg.y)
    (hgl : s.gimballLock = decide (p.camera.tilt < s.gimballLockThreshold)) :
    update env p s = ({ s with nextRef := s.nextRef + 2 }, []) := by
  have hch : changeDetected env p s = false := by
    unfold changeDetected
    rw [hcg, hlg]
    simp [hfa, hcx, hcy, hlx, hly, hgl]
  unfold update
  rw [hch]
  simp only [Bool.false_eq_true, if_false]
  rw [← hgl]

/-- Witness for C2: re-running `update` on the state that has just
rendered `p7` mutates nothing. -/
theorem update_unchanged_pose_no_mutation_witness :
    sRendered.featuresAdded = true ∧
    sRendered.cameraGeom = some ⟨7, 47, 0⟩ ∧
    sRendered.lookAtGeom = some ⟨8, 47, 1⟩ ∧
    update env0 p7 sRendered =
      ({ sRendered with nextRef := sRendered.nextRef + 2 }, []) :=
  ⟨by decide, by decide, by decide,
    update_unchanged_pose_no_mutation env0 p7 sRendered ⟨7, 47, 0⟩ ⟨8, 47, 1⟩
      (by decide) (by decide) (by decide) (by decide) (by decide) (by decide)
      (by decide) (by decide)⟩

/-- C3: dragging the camera marker while not degenerate pushes a view
whose look-at equals the drag anchor, whose heading is the negated
spherical bearing from the new camera point to the anchor, whose range
is `1000 * distVincenty(point, anchor) / sin(tilt)`, and whose tilt is
the engine's current tilt, unchanged. -/
theorem onDrag_camera_nondegenerate (env : Env) (p : GEPlugin)
    (s : ControlState) (a : LonLat) (pixel : Pixel)
    (hp : s.gePlugin = some p) (hgl : s.gimballLock = false)
    (ha : s.initialLookAt = some a) :
    onDrag env s Feat.camera pixel =
      { s with gePlugin := some { p with pushedViews :=
          { longitude := a.lon
            latitude := a.lat
            heading := -env.computeHeading (env.mapToGeo (env.pxToLonLat pixel)) a
            tilt := p.lookAt.tilt
            range := 1000 *
                env.distVincenty (env.mapToGeo (env.pxToLonLat pixel)) a /
              env.sinDeg p.lookAt.tilt } :: p.pushedViews } } := by
  unfold onDrag
  rw [hp]
  simp [hgl, ha]

/-- Witness for C3 at a concrete mid-drag state and pixel. -/
theorem onDrag_camera_nondegenerate_witness :
    sDragND.gePlugin = some p7 ∧
    sDragND.gimballLock = false ∧
    sDragND.initialLookAt = some ⟨8, 47⟩ ∧
    onDrag env0 sDragND Feat.camera ⟨3, 4⟩ =
      { sDragND with gePlugin := some { p7 with pushedViews :=
          { longitude := (8 : ℚ)
            latitude := 47
            heading := -env0.computeHeading
              (env0.mapToGeo (env0.pxToLonLat ⟨3, 4⟩)) ⟨8, 47⟩
            tilt := p7.lookAt.tilt
            range := 1000 *
                env0.distVincenty (env0.mapToGeo (env0.pxToLonLat ⟨3, 4⟩)) ⟨8, 47⟩ /
              env0.sinDeg p7.lookAt.tilt } :: p7.pushedViews } } :=
  ⟨by decide, by decide, by decide,
    onDrag_camera_nondegenerate env0 p7 sDragND ⟨8, 47⟩ ⟨3, 4⟩ (by decide)
      (by decide) (by decide)⟩

/-- C4: dragging the look-at marker — or the camera marker while
degenerate — pushes a view whose look-at is the dropped pixel's
geographic coordinate and whose range is the drag-anchor range, not
recomputed. -/
theorem onDrag_lookat_or_degenerate_camera (env : Env) (p : GEPlugin)
    (s : ControlState) (r : ℚ) (f : Feat) (pixel : Pixel)
    (hp : s.gePlugin = some p) (hr : s.initialRange = some r)
    (hf : f = Feat.lookAt ∨ (f = Feat.camera ∧ s.gimballLock = true)) :
    onDrag env s f pixel =
      { s with gePlugin := some { p with pushedViews :=
          { longitude := (env.mapToGeo (env.pxToLonLat pixel)).lon
            latitude := (env.mapToGeo (env.pxToLonLat pixel)).lat
            heading := p.lookAt.heading
            tilt := p.lookAt.tilt
            range := r } :: p.pushedViews } } := by
  unfold onDrag
  rw [hp]
  rcases hf with hf | ⟨hf, hgl⟩
  · subst hf
    simp [hr]
  · subst hf
    simp [hr, hgl]

/-- C5: for a fixed anchor and a fixed tilt in (0°, 90°], the range
pushed by the non-degenerate camera drag is strictly monotone in the
spherical distance between the dragged point and the anchor: a strictly
greater distance yields a strictly greater computed range. -/
theorem dragRange_strictMono_in_distance (dv : LonLat → LonLat → ℝ)
    (p1 p2 anchor : LonLat) (tilt : ℝ)
    (h0 : 0 < tilt) (h90 : tilt ≤ 90)
    (hd : dv p1 anchor < dv p2 anchor) :
    computeRange (dv p1 anchor) tilt < computeRange (dv p2 anchor) tilt := by
  have hπ := Real.pi_pos
  have hs : 0 < Real.sin (Real.pi * tilt / 180) := by
    apply Real.sin_pos_of_pos_of_lt_pi
    · have h1 : 0 < Real.pi * tilt := mul_pos hπ h0
      linarith
    · have h1 : Real.pi * tilt ≤ Real.pi * 90 :=
        mul_le_mul_of_nonneg_left h90 (le_of_lt hπ)
      linarith
  unfold computeRange
  exact (div_lt_div_iff_of_pos_right hs).mpr (by linarith)

/-- Witness for C5 at tilt 90° and two concrete dragged points. -/
theorem dragRange_strictMono_in_distance_witness :
    (0 : ℝ) < 90 ∧ (90 : ℝ) ≤ 90 ∧
    dvW ⟨0, 0⟩ ⟨5, 5⟩ < dvW ⟨1, 0⟩ ⟨5, 5⟩ ∧
    computeRange (dvW ⟨0, 0⟩ ⟨5, 5⟩) 90 < computeRange (dvW ⟨1, 0⟩ ⟨5, 5⟩) 90 :=
  ⟨by norm_num, by norm_num, by norm_num [dvW],
    dragRange_strictMono_in_distance dvW ⟨0, 0⟩ ⟨1, 0⟩ ⟨5, 5⟩ 90 (by norm_num)
      (by norm_num) (by norm_num [dvW])⟩

/-- Witness for C4: dragging the look-at marker at a concrete state. -/
theorem onDrag_lookat_or_degenerate_camera_witness :
    sDragDeg.gePlugin = some pDeg ∧
    sDragDeg.initialRange = some 555 ∧
    onDrag env0 sDragDeg Feat.lookAt ⟨3, 4⟩ =
      { sDragDeg with gePlugin := some { pDeg with pushedViews :=
          { longitude := (env0.mapToGeo (env0.pxToLonLat ⟨3, 4⟩)).lon
            latitude := (env0.mapToGeo (env0.pxToLonLat ⟨3, 4⟩)).lat
            heading := pDeg.lookAt.heading
            tilt := pDeg.lookAt.tilt
            range := 555 } :: pDeg.pushedViews } } :=
  ⟨by decide, by decide,
    onDrag_lookat_or_degenerate_camera env0 pDeg sDragDeg 555 Feat.lookAt ⟨3, 4⟩
      (by decide) (by decide) (Or.inl rfl)⟩

/-- C6 (amended): in every frame-end update that passes change detection,
the camera marker rotation is set from the engine look-at heading in the
degenerate case, and otherwise to `90 + atan2` (in degrees) of the
viewport pixel deltas from the camera pixel to the look-at pixel — an
on-screen bearing, not a geographic one. -/
theorem update_rotation_formula_on_change (env : Env) (p : GEPlugin)
    (s : ControlState) (hch : changeDetected env p s = true) :
    (update env p s).1.cameraRotation =
      (if p.camera.tilt < s.gimballLockThreshold then p.lookAt.heading
        else
          90 + env.atan2Deg
            ((env.lonLatToPx ⟨p.lookAt.longitude, p.lookAt.latitude⟩).y -
              (env.lonLatToPx ⟨p.camera.longitude, p.camera.latitude⟩).y)
            ((env.lonLatToPx ⟨p.lookAt.longitude, p.lookAt.latitude⟩).x -
              (env.lonLatToPx ⟨p.camera.longitude, p.camera.latitude⟩).x)) := by
  unfold update
  rw [hch]
  by_cases hg : p.camera.tilt < s.gimballLockThreshold <;> simp [hg]

/-- Witness for C6's amended theorem: the first render of the degenerate
pose `pDeg` sets the rotation from the engine heading. -/
theorem update_rotation_formula_on_change_witness :
    changeDetected env0 pDeg initialState = true ∧
    (update env0 pDeg initialState).1.cameraRotation =
      (if pDeg.camera.tilt < initialState.gimballLockThreshold then
          pDeg.lookAt.heading
        else
          90 + env0.atan2Deg
            ((env0.lonLatToPx ⟨pDeg.lookAt.longitude, pDeg.lookAt.latitude⟩).y -
              (env0.lonLatToPx ⟨pDeg.camera.longitude, pDeg.camera.latitude⟩).y)
            ((env0.lonLatToPx ⟨pDeg.lookAt.longitude, pDeg.lookAt.latitude⟩).x -
              (env0.lonLatToPx ⟨pDeg.camera.longitude, pDeg.camera.latitude⟩).x)) :=
  ⟨by decide, update_rotation_formula_on_change env0 pDeg initialState (by decide)⟩

/-- C6 counterexample: after the degenerate pose `pDeg` is rendered with
heading 0, a further frame-end update with the engine heading turned to
7 — camera and look-at positions unchanged — fails change detection and
leaves the marker rotation at the stale 0: the update has the degeneracy
flag true, yet the rotation is not set to the engine heading. -/
theorem update_rotation_stale_counterexample :
    (update env0 pDegH7 (update env0 pDeg initialState).1).1.gimballLock = true ∧
    pDegH7.lookAt.heading = 7 ∧
    (update env0 pDegH7 (update env0 pDeg initialState).1).1.cameraRotation ≠
      pDegH7.lookAt.heading :=
  ⟨by decide, by decide, by decide⟩

/-- C7 (amended): the teleport flag is set-once per engine connection,
not per session: while it is true, a further drag start neither invokes
the fly-to-speed setter again nor clears the flag, but `connectGEPlugin`
— run by every successful `activate()` and by `setGEPlugin` with a
non-null handle while active — resets it to false, re-arming the
setter. -/
theorem flyToSpeed_once_per_connection (env : Env) (p : GEPlugin)
    (s : ControlState) (hflag : s.gePluginFlyToSpeedSet = true)
    (hp : s.gePlugin = some p) :
    (onStart env s).gePluginFlyToSpeedSet = true ∧
    (onStart env s).gePlugin = some p ∧
    (connectGEPlugin s).gePluginFlyToSpeedSet = false := by
  unfold onStart connectGEPlugin
  rw [hp]
  simp [hflag]

/-- Witness for C7's amended theorem at the post-first-drag state. -/
theorem flyToSpeed_once_per_connection_witness :
    sC.gePluginFlyToSpeedSet = true ∧
    sC.gePlugin = some { p7 with flyToSpeedTeleportCalls := 1 } ∧
    ((onStart env0 sC).gePluginFlyToSpeedSet = true ∧
      (onStart env0 sC).gePlugin = some { p7 with flyToSpeedTeleportCalls := 1 } ∧
      (connectGEPlugin sC).gePluginFlyToSpeedSet = false) :=
  ⟨by decide, by decide,
    flyToSpeed_once_per_connection env0 { p7 with flyToSpeedTeleportCalls := 1 }
      sC (by decide) (by decide)⟩

/-- C7 counterexample: in the concrete session install-activate-drag-
deactivate-reactivate, the first drag sets the flag and invokes the
engine speed setter once; the reactivation resets the flag to false, and
a further drag start invokes the setter a second time in the same
session — refuting both "the flag is never reset" and "the setter is
invoked at most once per session". -/
theorem flyToSpeed_flag_reset_counterexample :
    sC.gePluginFlyToSpeedSet = true ∧
    (sC.gePlugin.map GEPlugin.flyToSpeedTeleportCalls) = some 1 ∧
    sD.gePluginFlyToSpeedSet = true ∧
    sE.gePluginFlyToSpeedSet = false ∧
    ((onStart env0 sE).gePlugin.map GEPlugin.flyToSpeedTeleportCalls) = some 2 :=
  ⟨by decide, by decide, by decide, by decide, by decide⟩

theorem activate_of_active (env : Env) (s : ControlState)
    (h : s.active = true) :
    activate env s = (s, false) := by
  unfold activate baseActivate
  simp [h]

theorem deactivate_of_inactive (s : ControlState) (h : s.active = false) :
    deactivate s = (s, false) := by
  unfold deactivate baseDeactivate
  simp [h]

/-- C8: with no engine handle set, `activate()` reports failure and adds
nothing to the map: no features, no layer, no drag control, no frame-end
listener; the render state is untouched. -/
theorem activate_without_plugin_no_features (env : Env) (s : ControlState)
    (hp : s.gePlugin = none) :
    (activate env s).2 = false ∧
    (activate env s).1.layerFeatures = s.layerFeatures ∧
    (activate env s).1.featuresAdded = s.featuresAdded ∧
    (activate env s).1.layerOnMap = s.layerOnMap ∧
    (activate env s).1.dragControlOnMap = s.dragControlOnMap ∧
    (activate env s).1.dragControlActive = s.dragControlActive ∧
    (activate env s).1.frameendAttached = s.frameendAttached := by
  unfold activate baseActivate
  cases ha : s.active <;> simp [ha, hp]

/-- Witness for C8 at the fresh control. -/
theorem activate_without_plugin_no_features_witness :
    initialState.gePlugin = none ∧
    ((activate env0 initialState).2 = false ∧
      (activate env0 initialState).1.layerFeatures = initialState.layerFeatures ∧
      (activate env0 initialState).1.featuresAdded = initialState.featuresAdded ∧
      (activate env0 initialState).1.layerOnMap = initialState.layerOnMap ∧
      (activate env0 initialState).1.dragControlOnMap =
        initialState.dragControlOnMap ∧
      (activate env0 initialState).1.dragControlActive =
        initialState.dragControlActive ∧
      (activate env0 initialState).1.frameendAttached =
        initialState.frameendAttached) :=
  ⟨by decide, activate_without_plugin_no_features env0 initialState (by decide)⟩

/-- C9: `activate()` on an already-active control and `deactivate()` on
an already-inactive control are guarded no-ops: both return failure and
leave the state entirely unchanged. -/
theorem activate_deactivate_guarded_noops (env : Env) (s t : ControlState)
    (hs : s.active = true) (ht : t.active = false) :
    activate env s = (s, false) ∧ deactivate t = (t, false) :=
  ⟨activate_of_active env s hs, deactivate_of_inactive t ht⟩

/-- Witness for C9: re-activating the activated trace state and
deactivating the fresh control. -/
theorem activate_deactivate_guarded_noops_witness :
    sB.active = true ∧ initialState.active = false ∧
    (activate env0 sB = (sB, false) ∧
      deactivate initialState = (initialState, false)) :=
  ⟨by decide, by decide,
    activate_deactivate_guarded_noops env0 sB initialState (by decide) (by decide)⟩

theorem setGEPlugin_active_some (env : Env) (p : GEPlugin) (s : ControlState)
    (ha : s.active = true) :
    (setGEPlugin env (some p) s).frameendAttached = true ∧
    (setGEPlugin env (some p) s).featuresAdded = true ∧
    (setGEPlugin env (some p) s).active = true ∧
    (setGEPlugin env (some p) s).gimballLock =
      decide (p.camera.tilt < s.gimballLockThreshold) := by
  unfold setGEPlugin disconnectGEPlugin
  cases hfe : s.frameendAttached <;>
    simp [hfe, ha, connectGEPlugin, update_frameendAttached_eq,
      update_featuresAdded_true, update_active_eq, update_gimballLock_eq]

/-- C10: a failed `activate()` with no engine handle is not atomic with
respect to the activation flag: it returns failure and adds nothing, yet
leaves the control marked active (the base-class activation runs before
the engine check).  Consequently a later `setGEPlugin` with a non-null
handle — without any further `activate()` call — attaches the frame-end
listener and performs an immediate sync, while a later `activate()` call
returns failure even though an engine is now present. -/
theorem failed_activate_sets_active_flag (env : Env) (p : GEPlugin)
    (s : ControlState) (ha : s.active = false) (hp : s.gePlugin = none) :
    (activate env s).2 = false ∧
    (activate env s).1.active = true ∧
    (activate env s).1.layerFeatures = s.layerFeatures ∧
    (activate env s).1.featuresAdded = s.featuresAdded ∧
    (activate env s).1.frameendAttached = s.frameendAttached ∧
    (setGEPlugin env (some p) (activate env s).1).frameendAttached = true ∧
    (setGEPlugin env (some p) (activate env s).1).featuresAdded = true ∧
    (setGEPlugin env (some p) (activate env s).1).gimballLock =
      decide (p.camera.tilt < s.gimballLockThreshold) ∧
    (activate env (setGEPlugin env (some p) (activate env s).1)).2 = false := by
  have h1 : activate env s = ({ s with active := true }, false) := by
    unfold activate baseActivate
    simp [ha, hp]
  rw [h1]
  have h2 := setGEPlugin_active_some env p { s with active := true } rfl
  refine ⟨rfl, rfl, rfl, rfl, rfl, h2.1, h2.2.1, h2.2.2.2, ?_⟩
  rw [activate_of_active env _ h2.2.2.1]

/-- Witness for C10 at the fresh control and the engine pose `p7`. -/
theorem failed_activate_sets_active_flag_witness :
    initialState.active = false ∧ initialState.gePlugin = none ∧
    ((activate env0 initialState).2 = false ∧
      (activate env0 initialState).1.active = true ∧
      (activate env0 initialState).1.layerFeatures = initialState.layerFeatures ∧
      (activate env0 initialState).1.featuresAdded = initialState.featuresAdded ∧
      (activate env0 initialState).1.frameendAttached =
        initialState.frameendAttached ∧
      (setGEPlugin env0 (some p7) (activate env0 initialState).1).frameendAttached =
        true ∧
      (setGEPlugin env0 (some p7) (activate env0 initialState).1).featuresAdded =
        true ∧
      (setGEPlugin env0 (some p7) (activate env0 initialState).1).gimballLock =
        decide (p7.camera.tilt < initialState.gimballLockThreshold) ∧
      (activate env0
        (setGEPlugin env0 (some p7) (activate env0 initialState).1)).2 = false) :=
  ⟨by decide, by decide,
    failed_activate_sets_active_flag env0 p7 initialState (by decide) (by decide)⟩

end GoogleEarthView
